import Mathlib

/-!
Verification of the biometric-sentry dashboard core logic.

The definitions below are a shallow embedding of the JavaScript source
of the repository:
- the occupancy aggregation (`computeDelta`, `computeOccupancyFromLogs`),
- the unique-in / intruder derivation (`computeUniqueInAndIntruders`),
- the attendance duration pairing (`calculateStudentAttendance` core loop,
  duration and percentage formatting),
- the generative summarizer client (`generateContent` retry loop),
- the RAG query translator (`runRAGAnalysis` filter construction).

JavaScript numbers are embedded as exact integers or rationals, strings as
Lean strings, nullable fields as `Option`, and JavaScript truthiness of a
nullable string (null / undefined / empty string are falsy) as
`jsTruthyStr`.  Side effects (state setters, network calls, the database)
are made explicit: stateful loops become folds, the network becomes an
environment parameter, and thrown-and-caught exceptions become explicit
outcome constructors.
-/

/-- A row of the attendance_logs relation as buffered by the dashboard.
Fields mirror the columns the source selects: roll_no (nullable),
event_type (a string, normally ENTRY or EXIT), timestamp (a nullable ISO
string), is_spoof, and evidence_url (nullable). -/
structure Event where
  roll_no : Option String
  event_type : String
  timestamp : Option String
  is_spoof : Bool
  evidence_url : Option String
deriving DecidableEq, Repr

/-- JavaScript truthiness of a nullable string: null, undefined and the
empty string are falsy; every other string is truthy. -/
def jsTruthyStr : Option String → Bool
  | none => false
  | some s => s != ""

/-- Embedding of `computeDelta` from the dashboard component: the
single-event incremental occupancy rule.  ENTRY adds one, EXIT subtracts
one clamping at zero, any other event type leaves the value unchanged.
The null-row guard of the source is not representable because `Event` is
not nullable here. -/
def computeDelta (currentOccupancy : ℤ) (row : Event) : ℤ :=
  if row.event_type = "ENTRY" then currentOccupancy + 1
  else if row.event_type = "EXIT" then max 0 (currentOccupancy - 1)
  else currentOccupancy

/-- One iteration of the `forEach` loop in `computeOccupancyFromLogs`:
two independent conditionals, exactly as in the source. -/
def occStep (e : ℤ) (r : Event) : ℤ :=
  let e1 := if r.event_type = "ENTRY" then e + 1 else e
  if r.event_type = "EXIT" then e1 - 1 else e1

/-- Embedding of `computeOccupancyFromLogs`: accumulate the signed counter
over the whole list and clamp the final value at zero.  The source stores
the result with `setOccupancy`; here the stored value is returned. -/
def computeOccupancyFromLogs (logs : List Event) : ℤ :=
  max 0 (logs.foldl occStep 0)

/-- The signed contribution of one event to the batch counter:
+1 for ENTRY, -1 for EXIT, 0 otherwise. -/
def evDelta (ev : Event) : ℤ :=
  if ev.event_type = "ENTRY" then 1
  else if ev.event_type = "EXIT" then -1
  else 0

/-- The unclamped signed sum of a sequence of events. -/
def signedSum (logs : List Event) : ℤ :=
  (logs.map evDelta).sum

lemma occStep_eq_add_evDelta (e : ℤ) (r : Event) :
    occStep e r = e + evDelta r := by
  unfold occStep evDelta
  by_cases h1 : r.event_type = "ENTRY"
  · have h2 : ¬ r.event_type = "EXIT" := by
      rw [h1]; decide
    simp [h1, h2]
  · by_cases h2 : r.event_type = "EXIT"
    · simp [h1, h2]
      ring
    · simp [h1, h2]

lemma foldl_occStep_eq (logs : List Event) :
    ∀ a : ℤ, logs.foldl occStep a = a + signedSum logs := by
  induction logs with
  | nil => intro a; simp [signedSum]
  | cons r rest ih =>
      intro a
      simp only [List.foldl_cons, ih, occStep_eq_add_evDelta, signedSum,
        List.map_cons, List.sum_cons]
      ring

lemma computeOccupancyFromLogs_eq (logs : List Event) :
    computeOccupancyFromLogs logs = max 0 (signedSum logs) := by
  unfold computeOccupancyFromLogs
  rw [foldl_occStep_eq]
  simp

lemma signedSum_append_single (logs : List Event) (ev : Event) :
    signedSum (logs ++ [ev]) = signedSum logs + evDelta ev := by
  simp [signedSum]

/-- C5: the batch occupancy computation is the signed sum of +1 per ENTRY
and -1 per EXIT over the whole sequence, clamped to zero only once at the
end, so the reported batch occupancy is a non-negative integer for every
event sequence, even when the running sum goes negative mid-scan. -/
theorem batch_occupancy_final_clamp_nonneg :
    ∀ logs : List Event,
      computeOccupancyFromLogs logs = max 0 (signedSum logs) ∧
      0 ≤ computeOccupancyFromLogs logs := by
  intro logs
  refine ⟨computeOccupancyFromLogs_eq logs, ?_⟩
  rw [computeOccupancyFromLogs_eq]
  exact le_max_left 0 _

/-- C1 counterexample: starting from the batch occupancy of the buffer
holding a single EXIT event (which is clamped to 0) and applying the
incremental rule for an appended ENTRY gives 1, while the batch recompute
of the two-event buffer gives 0, so the incremental update does not agree
with the batch recompute in general. -/
theorem occupancy_incremental_diverges_from_batch :
    computeDelta
        (computeOccupancyFromLogs [⟨none, "EXIT", none, false, none⟩])
        ⟨none, "ENTRY", none, false, none⟩ = 1 ∧
      computeOccupancyFromLogs
        ([⟨none, "EXIT", none, false, none⟩] ++
          [⟨none, "ENTRY", none, false, none⟩]) = 0 ∧
      computeDelta
          (computeOccupancyFromLogs [⟨none, "EXIT", none, false, none⟩])
          ⟨none, "ENTRY", none, false, none⟩ ≠
        computeOccupancyFromLogs
          ([⟨none, "EXIT", none, false, none⟩] ++
            [⟨none, "ENTRY", none, false, none⟩]) := by
  refine ⟨by decide, by decide, by decide⟩

/-- C1 amended: when the unclamped signed sum of the prior buffer is
non-negative (the final clamp did not fire on the prior buffer),
applying the single-event incremental rule to the batch-computed
occupancy of the prior buffer agrees with a full batch recompute of the
buffer with that event appended. -/
theorem occupancy_incremental_eq_batch_of_nonneg_sum :
    ∀ (logs : List Event) (ev : Event), 0 ≤ signedSum logs →
      computeDelta (computeOccupancyFromLogs logs) ev =
        computeOccupancyFromLogs (logs ++ [ev]) := by
  intro logs ev h
  have hb : computeOccupancyFromLogs logs = signedSum logs := by
    rw [computeOccupancyFromLogs_eq]
    exact max_eq_right h
  rw [hb, computeOccupancyFromLogs_eq, signedSum_append_single]
  unfold computeDelta evDelta
  by_cases h1 : ev.event_type = "ENTRY"
  · have h2 : ¬ ev.event_type = "EXIT" := by rw [h1]; decide
    simp [h1, h2]
    omega
  · by_cases h2 : ev.event_type = "EXIT"
    · simp [h1, h2]
      rw [sub_eq_add_neg]
    · simp [h1, h2]
      omega

/-- Witness for the amended C1 theorem at a concrete buffer: one ENTRY
event followed by an appended EXIT event. -/
theorem occupancy_incremental_eq_batch_witness :
    0 ≤ signedSum [⟨some "1", "ENTRY", none, false, none⟩] ∧
      computeDelta
          (computeOccupancyFromLogs [⟨some "1", "ENTRY", none, false, none⟩])
          ⟨some "1", "EXIT", none, false, none⟩ =
        computeOccupancyFromLogs
          ([⟨some "1", "ENTRY", none, false, none⟩] ++
            [⟨some "1", "EXIT", none, false, none⟩]) :=
  ⟨by decide,
    occupancy_incremental_eq_batch_of_nonneg_sum
      [⟨some "1", "ENTRY", none, false, none⟩]
      ⟨some "1", "EXIT", none, false, none⟩ (by decide)⟩

/-- A row of the per-subject attendance query in
`calculateStudentAttendance`: the event type and the epoch-millisecond
value of the row timestamp (the source converts the ISO timestamp with
`new Date(...).getTime()`; the input is already filtered to one subject
and to is_spoof = false by the query). -/
structure AttLog where
  event_type : String
  timestamp : Nat
deriving DecidableEq, Repr

/-- The loop state of `calculateStudentAttendance`: the accumulated
duration in minutes (an exact rational, standing for the JavaScript
number) and the timestamp of the currently open entry, if any. -/
structure AttState where
  totalDurationMinutes : ℚ
  entryTime : Option Nat
deriving DecidableEq, Repr

/-- One iteration of the `forEach` loop of `calculateStudentAttendance`:
an ENTRY is recorded only when no entry is open; an EXIT closes the open
entry and adds the elapsed minutes only when its timestamp is strictly
greater than the open entry timestamp; everything else is ignored. -/
def attStep (s : AttState) (log : AttLog) : AttState :=
  if log.event_type = "ENTRY" then
    match s.entryTime with
    | none => ⟨s.totalDurationMinutes, some log.timestamp⟩
    | some _ => s
  else if log.event_type = "EXIT" then
    match s.entryTime with
    | some e =>
        if e < log.timestamp then
          ⟨s.totalDurationMinutes +
            ((log.timestamp : ℚ) - (e : ℚ)) / 60000, none⟩
        else s
    | none => s
  else s

/-- The total duration in minutes accumulated by the loop of
`calculateStudentAttendance` over an ordered event history. -/
def attendanceTotal (logs : List AttLog) : ℚ :=
  (logs.foldl attStep ⟨0, none⟩).totalDurationMinutes

/-- JavaScript truncating division part of the `%` operator. -/
def jsTrunc (q : ℚ) : ℤ :=
  if 0 ≤ q then ⌊q⌋ else ⌈q⌉

/-- The JavaScript remainder operator `a % b` on numbers. -/
def jsRem (a b : ℚ) : ℚ :=
  a - b * (jsTrunc (a / b) : ℚ)

/-- JavaScript `Math.round` for the non-negative values produced here:
floor of the value plus one half. -/
def jsRound (q : ℚ) : ℤ :=
  ⌊q + 1 / 2⌋

/-- The duration string built by `calculateStudentAttendance`:
whole hours via `Math.floor(total / 60)` and remaining minutes via
`Math.round(total % 60)`, interpolated as hours-h space minutes-m. -/
def durationString (total : ℚ) : String :=
  toString (⌊total / 60⌋ : ℤ) ++ "h " ++ toString (jsRound (jsRem total 60)) ++ "m"

/-- The percentage value computed by `calculateStudentAttendance` before
its one-decimal formatting: the total minutes over the fixed 480-minute
scheduled day, scaled to 100 and clamped above at 100. -/
def percentageValue (total : ℚ) : ℚ :=
  min 100 (total / 480 * 100)

lemma attStep_entry_total (s : AttState) (ts : Nat) :
    (attStep s ⟨"ENTRY", ts⟩).totalDurationMinutes = s.totalDurationMinutes := by
  unfold attStep
  cases s.entryTime <;> simp

lemma attStep_total_mono (s : AttState) (l : AttLog) :
    s.totalDurationMinutes ≤ (attStep s l).totalDurationMinutes := by
  unfold attStep
  by_cases h1 : l.event_type = "ENTRY"
  · cases s.entryTime <;> simp [h1]
  · by_cases h2 : l.event_type = "EXIT"
    · cases hs : s.entryTime with
      | none => simp [h1, h2]
      | some e =>
          by_cases h3 : e < l.timestamp
          · have h4 : (e : ℚ) ≤ (l.timestamp : ℚ) := by exact_mod_cast h3.le
            have h5 : 0 ≤ ((l.timestamp : ℚ) - (e : ℚ)) / 60000 :=
              div_nonneg (sub_nonneg.mpr h4) (by norm_num)
            simp [h1, h2, h3]
            linarith
          · simp [h1, h2, h3]
    · simp [h1, h2]

lemma foldl_att_total_mono (ls : List AttLog) :
    ∀ s : AttState,
      s.totalDurationMinutes ≤ (ls.foldl attStep s).totalDurationMinutes := by
  induction ls with
  | nil => intro s; simp
  | cons l rest ih =>
      intro s
      calc s.totalDurationMinutes
          ≤ (attStep s l).totalDurationMinutes := attStep_total_mono s l
        _ ≤ ((l :: rest).foldl attStep s).totalDurationMinutes := by
            rw [List.foldl_cons]; exact ih (attStep s l)

lemma attendanceTotal_nonneg (logs : List AttLog) : 0 ≤ attendanceTotal logs :=
  foldl_att_total_mono logs ⟨0, none⟩

/-- C4: the attendance duration calculator pairs entries and exits by the
stated state machine: an ENTRY while no entry is open records its
timestamp; an ENTRY while an entry is already open is ignored; an EXIT
with no open entry is ignored; an EXIT whose timestamp is not strictly
greater than the open entry timestamp is ignored and the entry stays
open; a valid pair adds the elapsed minutes and closes the entry; a
trailing unmatched ENTRY contributes nothing to the total; and the
history ENTRY at 09:00, ENTRY at 09:05, EXIT at 09:30 yields the single
30-minute session "0h 30m". -/
theorem attendance_pairing_state_machine :
    (∀ (t : ℚ) (ts : Nat), attStep ⟨t, none⟩ ⟨"ENTRY", ts⟩ = ⟨t, some ts⟩) ∧
    (∀ (t : ℚ) (e ts : Nat), attStep ⟨t, some e⟩ ⟨"ENTRY", ts⟩ = ⟨t, some e⟩) ∧
    (∀ (t : ℚ) (ts : Nat), attStep ⟨t, none⟩ ⟨"EXIT", ts⟩ = ⟨t, none⟩) ∧
    (∀ (t : ℚ) (e ts : Nat), ts ≤ e →
      attStep ⟨t, some e⟩ ⟨"EXIT", ts⟩ = ⟨t, some e⟩) ∧
    (∀ (t : ℚ) (e ts : Nat), e < ts →
      attStep ⟨t, some e⟩ ⟨"EXIT", ts⟩ =
        ⟨t + ((ts : ℚ) - (e : ℚ)) / 60000, none⟩) ∧
    (∀ (logs : List AttLog) (ts : Nat),
      attendanceTotal (logs ++ [⟨"ENTRY", ts⟩]) = attendanceTotal logs) ∧
    durationString (attendanceTotal
      [⟨"ENTRY", 32400000⟩, ⟨"ENTRY", 32700000⟩, ⟨"EXIT", 34200000⟩]) = "0h 30m" := by
  have hT : attendanceTotal
      [⟨"ENTRY", 32400000⟩, ⟨"ENTRY", 32700000⟩, ⟨"EXIT", 34200000⟩] = 30 := by
    simp [attendanceTotal, attStep]
    norm_num
  refine ⟨?_, ?_, ?_, ?_, ?_, ?_, ?_⟩
  · intro t ts; simp [attStep]
  · intro t e ts; simp [attStep]
  · intro t ts; simp [attStep]
  · intro t e ts h
    simp [attStep, Nat.not_lt.mpr h]
  · intro t e ts h
    simp [attStep, h]
  · intro logs ts
    unfold attendanceTotal
    rw [List.foldl_append]
    exact attStep_entry_total _ ts
  · rw [hT]
    unfold durationString jsRound jsRem jsTrunc
    norm_num
    decide

/-- Witness for the C4 state-machine theorem at concrete inputs: an EXIT
at time 3 against an entry open since time 5 is ignored, and the worked
example produces the 30-minute duration string. -/
theorem attendance_pairing_state_machine_witness :
    (3 : Nat) ≤ 5 ∧
      attStep ⟨0, some 5⟩ ⟨"EXIT", 3⟩ = ⟨0, some 5⟩ ∧
      durationString (attendanceTotal
        [⟨"ENTRY", 32400000⟩, ⟨"ENTRY", 32700000⟩, ⟨"EXIT", 34200000⟩]) = "0h 30m" :=
  ⟨by decide,
    attendance_pairing_state_machine.2.2.2.1 0 5 3 (by decide),
    attendance_pairing_state_machine.2.2.2.2.2.2⟩

/-- C9: the total duration computed by the attendance calculator never
decreases as more events are appended to the history (in particular as
more valid ENTRY/EXIT pairs are supplied), and the percentage value is
always between 0 and 100 because it is clamped by
min 100 of total over 480 times 100. -/
theorem attendance_monotone_and_percentage_bounds :
    ∀ (logs more : List AttLog),
      attendanceTotal logs ≤ attendanceTotal (logs ++ more) ∧
      0 ≤ percentageValue (attendanceTotal logs) ∧
      percentageValue (attendanceTotal logs) ≤ 100 := by
  intro logs more
  refine ⟨?_, ?_, min_le_left _ _⟩
  · unfold attendanceTotal
    rw [List.foldl_append]
    exact foldl_att_total_mono more _
  · have h0 : 0 ≤ attendanceTotal logs := attendanceTotal_nonneg logs
    exact le_min (by norm_num)
      (mul_nonneg (div_nonneg h0 (by norm_num)) (by norm_num))

/-- C10: a valid single ENTRY/EXIT pair lasting 119.5 minutes makes the
calculator format the duration as "1h 60m": the minutes remainder 59.5 is
rounded to 60 independently of the hours floor, so the formatted minutes
component is not always strictly below 60. -/
theorem duration_string_minutes_sixty :
    attendanceTotal [⟨"ENTRY", 0⟩, ⟨"EXIT", 7170000⟩] = 239 / 2 ∧
      jsRound (jsRem (attendanceTotal [⟨"ENTRY", 0⟩, ⟨"EXIT", 7170000⟩]) 60) = 60 ∧
      durationString (attendanceTotal [⟨"ENTRY", 0⟩, ⟨"EXIT", 7170000⟩]) = "1h 60m" := by
  have hT : attendanceTotal [⟨"ENTRY", 0⟩, ⟨"EXIT", 7170000⟩] = 239 / 2 := by
    simp [attendanceTotal, attStep]
    norm_num
  refine ⟨hT, ?_, ?_⟩
  · rw [hT]
    unfold jsRound jsRem jsTrunc
    norm_num
  · rw [hT]
    unfold durationString jsRound jsRem jsTrunc
    norm_num
    decide

/-- A key of the intruder set of `computeUniqueInAndIntruders`.  The
source uses `ev.evidence_url || ev.timestamp || Math.random()`; the three
JavaScript value kinds (a URL string, a timestamp string, a number from
`Math.random()`) never compare equal to each other in the Set, which the
three constructors reflect.  Successive `Math.random()` draws are modelled
as a counter of fresh tokens, reflecting that distinct draws are distinct
values. -/
inductive IntruderKey where
  | url : String → IntruderKey
  | ts : String → IntruderKey
  | fresh : Nat → IntruderKey
deriving DecidableEq, Repr

/-- The `hasRoll` test of the source: the roll number is neither null nor
undefined and does not trim to the empty string. -/
def hasRoll (ev : Event) : Bool :=
  match ev.roll_no with
  | none => false
  | some r => r.trim != ""

/-- The intruder key chosen for a keyless event, together with the next
fresh-token counter: evidence URL if truthy, else the timestamp if truthy,
else a fresh token (consuming the counter). -/
def rawKey (ev : Event) (n : Nat) : IntruderKey × Nat :=
  if jsTruthyStr ev.evidence_url then (IntruderKey.url (ev.evidence_url.getD ""), n)
  else if jsTruthyStr ev.timestamp then (IntruderKey.ts (ev.timestamp.getD ""), n)
  else (IntruderKey.fresh n, n + 1)

/-- The loop state of `computeUniqueInAndIntruders`: the first-seen
event type per roll number (a Map in insertion order), the set of seen
intruder keys (a Set in insertion order), and the fresh-token counter. -/
structure UIState where
  rollLatest : List (String × String)
  intruderSeen : List IntruderKey
  fresh : Nat
deriving DecidableEq, Repr

/-- One iteration of the `for` loop of `computeUniqueInAndIntruders`:
an event with a roll number records its event type only on first sight;
a keyless event adds its key to the intruder set only when the key is
unseen and the event type is ENTRY. -/
def uiStep (s : UIState) (ev : Event) : UIState :=
  if hasRoll ev then
    let r := ev.roll_no.getD ""
    if (s.rollLatest.lookup r).isSome then s
    else ⟨s.rollLatest ++ [(r, ev.event_type)], s.intruderSeen, s.fresh⟩
  else
    let p := rawKey ev s.fresh
    if p.1 ∉ s.intruderSeen ∧ ev.event_type = "ENTRY" then
      ⟨s.rollLatest, s.intruderSeen ++ [p.1], p.2⟩
    else ⟨s.rollLatest, s.intruderSeen, p.2⟩

/-- The pair returned by `computeUniqueInAndIntruders`. -/
structure UIResult where
  uniqueIn : Nat
  intruderCount : Nat
deriving DecidableEq, Repr

/-- Embedding of `computeUniqueInAndIntruders`: fold the loop over the
buffered window, then count the roll numbers whose recorded status is
ENTRY and the size of the intruder key set.  The early return of the
source on an empty window coincides with the fold on the empty list. -/
def computeUniqueInAndIntruders (logs : List Event) : UIResult :=
  let s := logs.foldl uiStep ⟨[], [], 0⟩
  ⟨(s.rollLatest.filter (fun p => p.2 == "ENTRY")).length, s.intruderSeen.length⟩

/-- The keys the scan assigns to keyless ENTRY events, with the
fresh-token counter threaded through every keyless event exactly as the
scan does (a random draw is consumed whether or not the key is kept). -/
def entryKeys : List Event → Nat → List IntruderKey
  | [], _ => []
  | ev :: rest, n =>
    if hasRoll ev then entryKeys rest n
    else
      (if ev.event_type = "ENTRY" then [(rawKey ev n).1] else []) ++
        entryKeys rest (rawKey ev n).2

lemma rawKey_fresh_of_falsy (ev : Event) (n : Nat)
    (h1 : jsTruthyStr ev.evidence_url = false)
    (h2 : jsTruthyStr ev.timestamp = false) :
    rawKey ev n = (IntruderKey.fresh n, n + 1) := by
  simp [rawKey, h1, h2]

lemma uiStep_seen_of_hasRoll (s : UIState) (ev : Event) (h : hasRoll ev = true) :
    (uiStep s ev).intruderSeen = s.intruderSeen ∧ (uiStep s ev).fresh = s.fresh := by
  simp only [uiStep, h, if_true]
  split_ifs <;> exact ⟨rfl, rfl⟩

lemma uiStep_of_keyless (s : UIState) (ev : Event) (h : hasRoll ev = false) :
    uiStep s ev =
      if (rawKey ev s.fresh).1 ∉ s.intruderSeen ∧ ev.event_type = "ENTRY" then
        ⟨s.rollLatest, s.intruderSeen ++ [(rawKey ev s.fresh).1], (rawKey ev s.fresh).2⟩
      else ⟨s.rollLatest, s.intruderSeen, (rawKey ev s.fresh).2⟩ := by
  unfold uiStep
  rw [h]
  simp

lemma entryKeys_cons_hasRoll (ev : Event) (rest : List Event) (n : Nat)
    (h : hasRoll ev = true) :
    entryKeys (ev :: rest) n = entryKeys rest n := by
  simp [entryKeys, h]

lemma entryKeys_cons_entry (ev : Event) (rest : List Event) (n : Nat)
    (h : hasRoll ev = false) (hE : ev.event_type = "ENTRY") :
    entryKeys (ev :: rest) n = (rawKey ev n).1 :: entryKeys rest (rawKey ev n).2 := by
  simp [entryKeys, h, hE]

lemma entryKeys_cons_other (ev : Event) (rest : List Event) (n : Nat)
    (h : hasRoll ev = false) (hE : ¬ ev.event_type = "ENTRY") :
    entryKeys (ev :: rest) n = entryKeys rest (rawKey ev n).2 := by
  simp [entryKeys, h, hE]

lemma foldl_uiStep_seen_toFinset (logs : List Event) :
    ∀ s : UIState,
      ((logs.foldl uiStep s).intruderSeen).toFinset =
        s.intruderSeen.toFinset ∪ (entryKeys logs s.fresh).toFinset := by
  induction logs with
  | nil => intro s; simp [entryKeys]
  | cons ev rest ih =>
      intro s
      rw [List.foldl_cons]
      cases hhr : hasRoll ev with
      | true =>
          obtain ⟨hseen, hfresh⟩ := uiStep_seen_of_hasRoll s ev hhr
          rw [ih, hseen, hfresh, entryKeys_cons_hasRoll ev rest s.fresh hhr]
      | false =>
          rw [uiStep_of_keyless s ev hhr]
          by_cases hE : ev.event_type = "ENTRY"
          · rw [entryKeys_cons_entry ev rest s.fresh hhr hE, List.toFinset_cons]
            by_cases hk : (rawKey ev s.fresh).1 ∈ s.intruderSeen
            · rw [if_neg (by simp [hk])]
              rw [ih, Finset.union_insert,
                Finset.insert_eq_self.mpr
                  (Finset.mem_union_left _ (List.mem_toFinset.mpr hk))]
            · rw [if_pos ⟨hk, hE⟩]
              rw [ih]
              simp only [List.toFinset_append]
              rw [Finset.union_assoc]
              congr 1
          · rw [entryKeys_cons_other ev rest s.fresh hhr hE,
              if_neg (by simp [hE])]
            rw [ih]

lemma foldl_uiStep_seen_nodup (logs : List Event) :
    ∀ s : UIState, s.intruderSeen.Nodup →
      ((logs.foldl uiStep s).intruderSeen).Nodup := by
  induction logs with
  | nil => intro s hs; simpa using hs
  | cons ev rest ih =>
      intro s hs
      rw [List.foldl_cons]
      cases hhr : hasRoll ev with
      | true => exact ih _ ((uiStep_seen_of_hasRoll s ev hhr).1.symm ▸ hs)
      | false =>
          rw [uiStep_of_keyless s ev hhr]
          by_cases hc : (rawKey ev s.fresh).1 ∉ s.intruderSeen ∧ ev.event_type = "ENTRY"
          · rw [if_pos hc]
            refine ih _ (hs.append (List.nodup_singleton _) ?_)
            intro x hx hy
            exact hc.1 ((List.mem_singleton.mp hy) ▸ hx)
          · rw [if_neg hc]
            exact ih _ hs

lemma entryKeys_filter_keyless (logs : List Event) :
    ∀ n : Nat,
      entryKeys (logs.filter (fun ev => !hasRoll ev)) n = entryKeys logs n := by
  induction logs with
  | nil => intro n; simp
  | cons ev rest ih =>
      intro n
      rw [List.filter_cons]
      cases hhr : hasRoll ev with
      | true =>
          simp only [hhr, Bool.not_true, Bool.false_eq_true, if_false]
          rw [ih, entryKeys_cons_hasRoll ev rest n hhr]
      | false =>
          simp only [hhr, Bool.not_false, if_true]
          by_cases hE : ev.event_type = "ENTRY"
          · rw [entryKeys_cons_entry ev rest n hhr hE,
              entryKeys_cons_entry ev (rest.filter fun e => !hasRoll e) n hhr hE, ih]
          · rw [entryKeys_cons_other ev rest n hhr hE,
              entryKeys_cons_other ev (rest.filter fun e => !hasRoll e) n hhr hE, ih]

/-- C8: in the unique-in / threat derivation, events with a present roll
number never contribute to the intruder count (removing them all leaves
the count unchanged), and the count equals the number of distinct keys
assigned to keyless ENTRY-typed events, so only keyless ENTRY events add
to the intruder set and the threat count is the size of that set. -/
theorem threat_count_only_keyless_entries :
    ∀ logs : List Event,
      (computeUniqueInAndIntruders logs).intruderCount =
        (computeUniqueInAndIntruders
          (logs.filter (fun ev => !hasRoll ev))).intruderCount ∧
      (computeUniqueInAndIntruders logs).intruderCount =
        (entryKeys logs 0).toFinset.card := by
  have key : ∀ ls : List Event,
      (computeUniqueInAndIntruders ls).intruderCount =
        (entryKeys ls 0).toFinset.card := by
    intro ls
    have hnd := foldl_uiStep_seen_nodup ls ⟨[], [], 0⟩ (by simp)
    have hfin := foldl_uiStep_seen_toFinset ls ⟨[], [], 0⟩
    show (ls.foldl uiStep ⟨[], [], 0⟩).intruderSeen.length = _
    rw [← List.toFinset_card_of_nodup hnd, hfin]
    simp
  intro logs
  refine ⟨?_, key logs⟩
  rw [key logs, key (logs.filter (fun ev => !hasRoll ev)), entryKeys_filter_keyless]

/-- C2 counterexample: two keyless ENTRY events with no evidence URL and
the same present timestamp share the key equal to that timestamp, so the
intruder count over the pair is 1, not 2: events whose timestamps are
equal (rather than absent) are not treated as distinct intruders. -/
theorem equal_timestamp_keyless_entries_collapse :
    (computeUniqueInAndIntruders
        [⟨none, "ENTRY", some "2025-01-01T09:00:00Z", false, none⟩,
          ⟨none, "ENTRY", some "2025-01-01T09:00:00Z", false, none⟩]).intruderCount = 1 ∧
      (computeUniqueInAndIntruders
        [⟨none, "ENTRY", some "2025-01-01T09:00:00Z", false, none⟩,
          ⟨none, "ENTRY", some "2025-01-01T09:00:00Z", false, none⟩]).intruderCount ≠ 2 := by
  refine ⟨by decide, by decide⟩

/-- C2 amended: two ENTRY-typed events lacking a roll number, with no
truthy evidence URL and with absent (falsy) timestamps fall back to fresh
random tokens, so each contributes its own element to the intruder key
set and the intruder count over the pair is 2; with equal present
timestamps the two events instead share one key. -/
theorem absent_timestamp_keyless_entries_distinct :
    ∀ e1 e2 : Event,
      hasRoll e1 = false → hasRoll e2 = false →
      e1.event_type = "ENTRY" → e2.event_type = "ENTRY" →
      jsTruthyStr e1.evidence_url = false → jsTruthyStr e2.evidence_url = false →
      jsTruthyStr e1.timestamp = false → jsTruthyStr e2.timestamp = false →
      (computeUniqueInAndIntruders [e1, e2]).intruderCount = 2 := by
  intro e1 e2 hr1 hr2 ht1 ht2 hu1 hu2 hs1 hs2
  show ([e1, e2].foldl uiStep ⟨[], [], 0⟩).intruderSeen.length = 2
  rw [List.foldl_cons, uiStep_of_keyless _ e1 hr1,
    rawKey_fresh_of_falsy e1 0 hu1 hs1]
  simp only [ht1, List.not_mem_nil, not_false_iff, true_and, if_true, and_true]
  rw [List.foldl_cons, List.foldl_nil, uiStep_of_keyless _ e2 hr2,
    rawKey_fresh_of_falsy e2 1 hu2 hs2]
  simp [ht2]

/-- Witness for the amended C2 theorem: two concrete keyless ENTRY events
with no evidence URL and no timestamp yield an intruder count of 2. -/
theorem absent_timestamp_keyless_entries_distinct_witness :
    hasRoll ⟨none, "ENTRY", none, false, none⟩ = false ∧
      jsTruthyStr (Event.evidence_url ⟨none, "ENTRY", none, false, none⟩) = false ∧
      jsTruthyStr (Event.timestamp ⟨none, "ENTRY", none, false, none⟩) = false ∧
      (computeUniqueInAndIntruders
        [⟨none, "ENTRY", none, false, none⟩,
          ⟨none, "ENTRY", none, false, none⟩]).intruderCount = 2 :=
  ⟨by decide, by decide, by decide,
    absent_timestamp_keyless_entries_distinct
      ⟨none, "ENTRY", none, false, none⟩ ⟨none, "ENTRY", none, false, none⟩
      (by decide) (by decide) (by decide) (by decide)
      (by decide) (by decide) (by decide) (by decide)⟩

/-- The observable outcome of one fetch attempt in `generateContent`:
a 429 rate-limit status, a non-ok HTTP status with an error body (which
the source turns into a thrown error), an ok response carrying the
extracted candidate text (absent fields give none), or an exception
thrown by fetch or JSON parsing.  Waiting (backoff and jitter delays)
has no observable effect on the returned string and is not modelled. -/
inductive FetchOutcome where
  | rate429 : FetchOutcome
  | httpErr : Nat → String → FetchOutcome
  | success : Option String → FetchOutcome
  | netThrow : String → FetchOutcome
deriving DecidableEq, Repr

/-- The sentinel returned by `generateContent` when the API key is
missing. -/
def offlineMsg : String := "Error: AI Assistant is offline (Missing API Key)."

/-- The sentinel returned from the catch block of `generateContent` on
the final attempt. -/
def retriesMsg : String :=
  "Error: AI Assistant failed to process the request after multiple retries."

/-- The sentinel returned by `generateContent` after the loop exits,
reached when the final attempt is rate limited. -/
def exhaustMsg : String := "Error: AI Assistant failed to process the request."

/-- The usable text of a fetch outcome: the extracted candidate text when
it is present and non-empty (JavaScript truthiness), otherwise none. -/
def usableText : FetchOutcome → Option String
  | FetchOutcome.success (some t) => if t == "" then none else some t
  | _ => none

/-- The retry loop of `generateContent`.  The environment maps the
attempt index to that attempt's outcome; the fuel is the number of
attempts left, so the source condition attempt = maxRetries - 1 is
fuel = 1.  A 429 waits and retries; a non-ok status, a thrown error and
an ok response with falsy text all reach the catch block, which returns
the retry sentinel on the final attempt and otherwise waits and retries;
an ok response with truthy text returns that text immediately; when the
loop exits without returning, the exhaustion sentinel is returned. -/
def genLoop (env : Nat → FetchOutcome) : Nat → Nat → String
  | _, 0 => exhaustMsg
  | attempt, fuel + 1 =>
    match env attempt with
    | FetchOutcome.rate429 => genLoop env (attempt + 1) fuel
    | FetchOutcome.httpErr _ _ =>
        if fuel = 0 then retriesMsg else genLoop env (attempt + 1) fuel
    | FetchOutcome.success t =>
        match t with
        | some s =>
            if s != "" then s
            else if fuel = 0 then retriesMsg else genLoop env (attempt + 1) fuel
        | none => if fuel = 0 then retriesMsg else genLoop env (attempt + 1) fuel
    | FetchOutcome.netThrow _ =>
        if fuel = 0 then retriesMsg else genLoop env (attempt + 1) fuel

/-- Embedding of `generateContent`: a missing (empty) API key returns the
offline sentinel without any attempt; otherwise the retry loop runs with
maxRetries attempts.  The function is total, which is the never-throws
contract: every path yields a string. -/
def generateContent (apiKey : String) (env : Nat → FetchOutcome)
    (maxRetries : Nat) : String :=
  if apiKey == "" then offlineMsg else genLoop env 0 maxRetries


lemma genLoop_zero (env : Nat → FetchOutcome) (a : Nat) :
    genLoop env a 0 = exhaustMsg := rfl

lemma genLoop_succ (env : Nat → FetchOutcome) (a fuel : Nat) :
    genLoop env a (fuel + 1) =
      match env a with
      | FetchOutcome.rate429 => genLoop env (a + 1) fuel
      | FetchOutcome.httpErr _ _ =>
          if fuel = 0 then retriesMsg else genLoop env (a + 1) fuel
      | FetchOutcome.success t =>
          match t with
          | some s =>
              if s != "" then s
              else if fuel = 0 then retriesMsg else genLoop env (a + 1) fuel
          | none => if fuel = 0 then retriesMsg else genLoop env (a + 1) fuel
      | FetchOutcome.netThrow _ =>
          if fuel = 0 then retriesMsg else genLoop env (a + 1) fuel := rfl

lemma genLoop_usable (env : Nat → FetchOutcome) (a fuel : Nat) (s : String)
    (h : usableText (env a) = some s) :
    genLoop env a (fuel + 1) = s := by
  rw [genLoop_succ]
  cases he : env a with
  | rate429 => rw [he] at h; simp [usableText] at h
  | httpErr c b => rw [he] at h; simp [usableText] at h
  | netThrow m => rw [he] at h; simp [usableText] at h
  | success t =>
      rw [he] at h
      cases t with
      | none => simp [usableText] at h
      | some v =>
          by_cases hv : v = ""
          · subst hv; simp [usableText] at h
          · have hvs : v = s := by simpa [usableText, hv] using h
            subst hvs
            simp [hv]

lemma genLoop_skip (env : Nat → FetchOutcome) (a fuel : Nat)
    (h : usableText (env a) = none) :
    genLoop env a (fuel + 1 + 1) = genLoop env (a + 1) (fuel + 1) := by
  rw [genLoop_succ]
  cases he : env a with
  | rate429 => simp
  | httpErr c b => simp
  | netThrow m => simp
  | success t =>
      rw [he] at h
      cases t with
      | none => simp
      | some v =>
          by_cases hv : v = ""
          · subst hv; simp
          · exfalso
            rw [usableText] at h
            rw [if_neg (by simpa using hv)] at h
            exact Option.some_ne_none v h

lemma genLoop_last (env : Nat → FetchOutcome) (a : Nat)
    (h : usableText (env a) = none) :
    genLoop env a (0 + 1) = retriesMsg ∨ genLoop env a (0 + 1) = exhaustMsg := by
  rw [genLoop_succ]
  cases he : env a with
  | rate429 => exact Or.inr (genLoop_zero env (a + 1))
  | httpErr c b => exact Or.inl (by simp)
  | netThrow m => exact Or.inl (by simp)
  | success t =>
      rw [he] at h
      cases t with
      | none => exact Or.inl (by simp)
      | some v =>
          by_cases hv : v = ""
          · subst hv; exact Or.inl (by simp)
          · exfalso
            rw [usableText] at h
            rw [if_neg (by simpa using hv)] at h
            exact Option.some_ne_none v h

lemma genLoop_429 (env : Nat → FetchOutcome) (a fuel : Nat)
    (h : env a = FetchOutcome.rate429) :
    genLoop env a (fuel + 1) = genLoop env (a + 1) fuel := by
  rw [genLoop_succ, h]

/-- C3: the generative summarizer client never throws: with an absent
(empty) API key it returns the fixed offline sentinel; when none of its
three attempts produces a non-empty extracted text it returns one of the
two fixed failure sentinels; under three consecutive 429 responses it
returns the exhaustion sentinel; and on the first attempt whose response
carries a non-empty text it returns exactly that text. -/
theorem generate_content_sentinel_or_text (apiKey : String)
    (env : Nat → FetchOutcome) :
    (apiKey = "" → generateContent apiKey env 3 = offlineMsg) ∧
    (apiKey ≠ "" → (∀ i, i < 3 → usableText (env i) = none) →
      generateContent apiKey env 3 = retriesMsg ∨
        generateContent apiKey env 3 = exhaustMsg) ∧
    (apiKey ≠ "" → (∀ i, i < 3 → env i = FetchOutcome.rate429) →
      generateContent apiKey env 3 = exhaustMsg) ∧
    (∀ i s, apiKey ≠ "" → i < 3 → (∀ j, j < i → usableText (env j) = none) →
      usableText (env i) = some s → generateContent apiKey env 3 = s) := by
  have hgen : ∀ k : String, k ≠ "" → generateContent k env 3 = genLoop env 0 3 := by
    intro k hk
    unfold generateContent
    rw [if_neg (by simpa using hk)]
  refine ⟨?_, ?_, ?_, ?_⟩
  · intro h
    simp [generateContent, h]
  · intro hk hnone
    rw [hgen apiKey hk]
    have e1 : genLoop env 0 (1 + 1 + 1) = genLoop env 1 (1 + 1) :=
      genLoop_skip env 0 1 (hnone 0 (by omega))
    have e2 : genLoop env 1 (0 + 1 + 1) = genLoop env 2 (0 + 1) :=
      genLoop_skip env 1 0 (hnone 1 (by omega))
    have e3 := genLoop_last env 2 (hnone 2 (by omega))
    rw [show (3 : Nat) = 1 + 1 + 1 from rfl, e1,
      show (1 + 1 : Nat) = 0 + 1 + 1 from rfl, e2]
    exact e3
  · intro hk hall
    rw [hgen apiKey hk]
    rw [show (3 : Nat) = 2 + 1 from rfl, genLoop_429 env 0 2 (hall 0 (by omega)),
      show (2 : Nat) = 1 + 1 from rfl, genLoop_429 env 1 1 (hall 1 (by omega)),
      show (1 : Nat) = 0 + 1 from rfl, genLoop_429 env 2 0 (hall 2 (by omega))]
    exact genLoop_zero env 3
  · intro i s hk hi hbefore hus
    rw [hgen apiKey hk]
    interval_cases i
    · exact genLoop_usable env 0 2 s hus
    · rw [show (3 : Nat) = 1 + 1 + 1 from rfl,
        genLoop_skip env 0 1 (hbefore 0 (by omega))]
      exact genLoop_usable env 1 1 s hus
    · rw [show (3 : Nat) = 1 + 1 + 1 from rfl,
        genLoop_skip env 0 1 (hbefore 0 (by omega)),
        show (1 + 1 : Nat) = 0 + 1 + 1 from rfl,
        genLoop_skip env 1 0 (hbefore 1 (by omega))]
      exact genLoop_usable env 2 0 s hus

/-- Witness for the C3 theorem: the missing-key sentinel, three
consecutive 429 responses yielding the exhaustion sentinel, three
unusable responses yielding a failure sentinel, and an immediate
non-empty text being returned, all at concrete environments. -/
theorem generate_content_sentinel_or_text_witness :
    generateContent "" (fun _ => FetchOutcome.rate429) 3 = offlineMsg ∧
      generateContent "k" (fun _ => FetchOutcome.rate429) 3 = exhaustMsg ∧
      (generateContent "k" (fun _ => FetchOutcome.success none) 3 = retriesMsg ∨
        generateContent "k" (fun _ => FetchOutcome.success none) 3 = exhaustMsg) ∧
      generateContent "k" (fun _ => FetchOutcome.success (some "report")) 3 = "report" :=
  ⟨(generate_content_sentinel_or_text "" (fun _ => FetchOutcome.rate429)).1 rfl,
    (generate_content_sentinel_or_text "k" (fun _ => FetchOutcome.rate429)).2.2.1
      (by decide) (fun i _ => rfl),
    (generate_content_sentinel_or_text "k" (fun _ => FetchOutcome.success none)).2.1
      (by decide) (fun i _ => rfl),
    (generate_content_sentinel_or_text "k"
        (fun _ => FetchOutcome.success (some "report"))).2.2.2 0 "report"
      (by decide) (by decide) (fun j hj => absurd hj (by omega)) (by decide)⟩

/-- The apostrophe character as a string, used by source message
templates. -/
def apostrophe : String := String.singleton (Char.ofNat 39)

/-- JavaScript `toLowerCase` as used by the translator keywords: map
the character lowercase conversion over the string. -/
def jsToLower (s : String) : String := String.mk (s.data.map Char.toLower)

/-- Character-list prefix test used by the substring search. -/
def leadMatch : List Char → List Char → Bool
  | [], _ => true
  | _ :: _, [] => false
  | a :: as, b :: bs => a == b && leadMatch as bs

/-- Substring search over character lists: the needle occurs at the head
or somewhere in the tail. -/
def subSearch (needle : List Char) : List Char → Bool
  | [] => needle.isEmpty
  | c :: rest => leadMatch needle (c :: rest) || subSearch needle rest

/-- JavaScript `hay.includes(sub)`: substring containment. -/
def containsSub (hay sub : String) : Bool :=
  subSearch sub.data hay.data

/-- A row of the students relation: roll number and full name. -/
structure Student where
  roll_no : String
  full_name : String
deriving DecidableEq, Repr

/-- The structured filter accumulated by `runRAGAnalysis` over the
attendance_logs query builder, plus the human-readable data label. -/
structure QueryFilter where
  spoofEquals : Option Bool
  subjectIdIsNull : Option Bool
  subjectIdIn : Option (List String)
  timestampGte : Option String
  label : String
deriving DecidableEq, Repr

/-- Rules A and B of `runRAGAnalysis`: a proxy keyword adds the
is_spoof equality filter and the proxy label; an intruder keyword adds
the roll_no-is-null filter and the intruder label (overwriting the
label); the flag records whether either rule applied.  The argument is
the lower-cased question. -/
def ruleAB (lq : String) : QueryFilter × Bool :=
  let f0 : QueryFilter := ⟨none, none, none, none, "Attendance Logs"⟩
  let p := containsSub lq "proxy" || containsSub lq "proxies"
  let f1 := if p then
      ⟨some true, f0.subjectIdIsNull, f0.subjectIdIn, f0.timestampGte,
        "Proxy Attempts"⟩
    else f0
  let i := containsSub lq "intruder" || containsSub lq "intruders"
  let f2 := if i then
      ⟨f1.spoofEquals, some true, f1.subjectIdIn, f1.timestampGte,
        "Intruder Sightings"⟩
    else f1
  (f2, p || i)

/-- The directory lookup of rule C: students whose full name contains
the (lower-case) name part, case-insensitively, as the ilike pattern
does. -/
def nameMatches (students : List Student) (namePart : String) : List Student :=
  students.filter (fun s => containsSub (jsToLower s.full_name) namePart)

/-- The not-found message returned when rule C matches a name keyword
but the directory lookup is empty and no earlier rule applied. -/
def notFoundMsg (namePart : String) : String :=
  "AI Assistant: I cannot find activity logs for " ++ apostrophe ++ namePart ++
    apostrophe ++ ". Please check the name or Roll Number."

/-- Rules A to C of `runRAGAnalysis`: the filter state just before the
time-constraint rule, or the not-found short circuit of rule C.  The
result pair carries the filter and the filterApplied flag. -/
def preToday (students : List Student) (q : String) :
    Except String (QueryFilter × Bool) :=
  if containsSub (jsToLower q) "ashraf" || containsSub (jsToLower q) "mahaboob" then
    match nameMatches students
        (if containsSub (jsToLower q) "ashraf" then "ashraf" else "mahaboob") with
    | [] =>
        if (ruleAB (jsToLower q)).2 then Except.ok (ruleAB (jsToLower q))
        else Except.error (notFoundMsg
          (if containsSub (jsToLower q) "ashraf" then "ashraf" else "mahaboob"))
    | m :: rest =>
        Except.ok (⟨(ruleAB (jsToLower q)).1.spoofEquals,
          (ruleAB (jsToLower q)).1.subjectIdIsNull,
          some ((m :: rest).map Student.roll_no),
          (ruleAB (jsToLower q)).1.timestampGte,
          m.full_name ++ apostrophe ++ "s Activity"⟩, true)
  else Except.ok (ruleAB (jsToLower q))

/-- Rule D of `runRAGAnalysis`: add the start-of-day lower bound on the
timestamp and append the Today suffix to the label. -/
def addToday (today : String) (f : QueryFilter) : QueryFilter :=
  ⟨f.spoofEquals, f.subjectIdIsNull, f.subjectIdIn, some today,
    f.label ++ " (Today)"⟩

/-- The full query translation of `runRAGAnalysis`: rules A to C, then
rule D exactly when no earlier rule applied or the question mentions
today.  The parameter today stands for the start-of-current-day string
the source computes from the clock. -/
def translateQuery (students : List Student) (today : String) (q : String) :
    Except String QueryFilter :=
  match preToday students q with
  | Except.error msg => Except.error msg
  | Except.ok fb =>
      Except.ok (if !fb.2 || containsSub (jsToLower q) "today" then
          addToday today fb.1
        else fb.1)

/-- The fixed system instruction `ANALYST_PROMPT` of the source. -/
def ANALYST_PROMPT : String :=
  "You are a specialized security and attendance analyst named " ++ apostrophe ++
    "The Sentry AI" ++ apostrophe ++
    ". Your task is to analyze the provided raw attendance data (which is in JSON format) and answer the user" ++
    apostrophe ++
    "s question clearly and conversationally. Do not include the raw JSON data in your final answer. State the total number of threats found."

/-- The augmented query `runRAGAnalysis` sends to the generative client:
the user question, the record count, the label, and the serialized
records. -/
def augmentedQuery (q : String) (count : Nat) (label : String)
    (serialized : String) : String :=
  "User Question: \"" ++ q ++ "\". Data Retrieved (" ++ toString count ++
    " records for " ++ label ++ "): " ++ serialized

/-- The offline message returned when the database client is absent. -/
def offlineDbMsg : String :=
  "Error: Database connection is offline. Cannot perform RAG analysis."

/-- The message returned when the retrieval reports an error. -/
def dbErrorMsg : String :=
  "AI Assistant: A database error occurred during data retrieval."

/-- The message returned when the retrieval yields no rows. -/
def noDataMsg (label : String) : String :=
  "AI Assistant: No " ++ label ++ " found in the logs matching your criteria."

/-- Embedding of `runRAGAnalysis`: the database is an abstract filtered
query (error or rows), JSON serialization of the rows is an abstract
serializer, and the generative client is an abstract function of the
system instruction and the augmented query.  The boolean of the result
records whether the generative client was invoked. -/
def runRAGAnalysis (connected : Bool) (students : List Student)
    (today : String) (db : QueryFilter → Except Unit (List Event))
    (serialize : List Event → String) (gemini : String → String → String)
    (q : String) : String × Bool :=
  if !connected then (offlineDbMsg, false)
  else
    match translateQuery students today q with
    | Except.error msg => (msg, false)
    | Except.ok f =>
        match db f with
        | Except.error _ => (dbErrorMsg, false)
        | Except.ok [] => (noDataMsg f.label, false)
        | Except.ok rows =>
            ("AI Assistant: " ++
              gemini ANALYST_PROMPT
                (augmentedQuery q rows.length f.label (serialize rows)), true)

lemma ruleAB_gte (lq : String) : (ruleAB lq).1.timestampGte = none := by
  unfold ruleAB
  dsimp only
  split
  · split <;> rfl
  · split <;> rfl

lemma preToday_gte (students : List Student) (q : String)
    (fb : QueryFilter × Bool) (h : preToday students q = Except.ok fb) :
    fb.1.timestampGte = none := by
  unfold preToday at h
  split at h
  · split at h
    · split at h
      · cases h
        exact ruleAB_gte _
      · exact absurd h (by simp)
    · cases h
      exact ruleAB_gte _
  · cases h
    exact ruleAB_gte _

/-- C6: the question "how many proxies today" translates to the filter
with is_spoof required true, the start-of-day timestamp lower bound and
the label "Proxy Attempts (Today)"; and in general, for any question
that does not short-circuit, the translator adds the start-of-day bound
and appends the Today label suffix exactly when no filter was applied by
rules A to C or the question mentions today, the filter before that rule
never carrying a timestamp bound. -/
theorem query_translator_today_rule :
    (∀ (students : List Student) (today : String),
      translateQuery students today "how many proxies today" =
        Except.ok ⟨some true, none, none, some today, "Proxy Attempts (Today)"⟩) ∧
    (∀ (students : List Student) (today q : String) (fb : QueryFilter × Bool),
      preToday students q = Except.ok fb →
        fb.1.timestampGte = none ∧
        translateQuery students today q =
          Except.ok (if !fb.2 || containsSub (jsToLower q) "today" then
              addToday today fb.1
            else fb.1)) := by
  constructor
  · intro students today
    have hpre : preToday students "how many proxies today" =
        Except.ok (⟨some true, none, none, none, "Proxy Attempts"⟩, true) := by
      unfold preToday
      rw [if_neg (by decide)]
      rw [show ruleAB (jsToLower "how many proxies today") =
          (⟨some true, none, none, none, "Proxy Attempts"⟩, true) from by decide]
    unfold translateQuery
    rw [hpre]
    dsimp only
    rw [if_pos (by decide)]
    unfold addToday
    dsimp only
    rw [show "Proxy Attempts" ++ " (Today)" = "Proxy Attempts (Today)" from by decide]
  · intro students today q fb h
    refine ⟨preToday_gte students q fb h, ?_⟩
    unfold translateQuery
    rw [h]

/-- Witness for the C6 theorem: a keyword-free question reaches rule D
with no filter applied, so the translator adds the start-of-day bound. -/
theorem query_translator_today_rule_witness :
    preToday [] "hello" =
        Except.ok (⟨none, none, none, none, "Attendance Logs"⟩, false) ∧
      (⟨none, none, none, none, "Attendance Logs"⟩ : QueryFilter).timestampGte = none ∧
      translateQuery [] "2026-10-11" "hello" =
        Except.ok (if !(false : Bool) || containsSub (jsToLower "hello") "today" then
            addToday "2026-10-11" ⟨none, none, none, none, "Attendance Logs"⟩
          else ⟨none, none, none, none, "Attendance Logs"⟩) :=
  ⟨rfl,
    (query_translator_today_rule.2 [] "2026-10-11" "hello"
      (⟨none, none, none, none, "Attendance Logs"⟩, false) rfl).1,
    (query_translator_today_rule.2 [] "2026-10-11" "hello"
      (⟨none, none, none, none, "Attendance Logs"⟩, false) rfl).2⟩

/-- C7: when the question matches a name keyword, the directory lookup
yields no matching student, and neither the proxy nor the intruder rule
applied, the assistant pipeline returns the not-found message and the
generative client is not invoked (the invocation flag is false). -/
theorem unknown_name_short_circuits :
    ∀ (students : List Student) (today : String)
      (db : QueryFilter → Except Unit (List Event))
      (serialize : List Event → String)
      (gemini : String → String → String) (q : String),
      (containsSub (jsToLower q) "ashraf" ||
        containsSub (jsToLower q) "mahaboob") = true →
      (containsSub (jsToLower q) "proxy" ||
        containsSub (jsToLower q) "proxies") = false →
      (containsSub (jsToLower q) "intruder" ||
        containsSub (jsToLower q) "intruders") = false →
      nameMatches students
        (if containsSub (jsToLower q) "ashraf" then "ashraf" else "mahaboob") = [] →
      runRAGAnalysis true students today db serialize gemini q =
        (notFoundMsg
          (if containsSub (jsToLower q) "ashraf" then "ashraf" else "mahaboob"),
          false) := by
  intro students today db serialize gemini q hname hp hi hmatch
  have hAB2 : (ruleAB (jsToLower q)).2 = false := by
    unfold ruleAB
    dsimp only
    rw [hp, hi]
    decide
  have hpre : preToday students q = Except.error
      (notFoundMsg
        (if containsSub (jsToLower q) "ashraf" then "ashraf" else "mahaboob")) := by
    unfold preToday
    rw [if_pos hname, hmatch]
    dsimp only
    rw [if_neg (by simp [hAB2])]
  unfold runRAGAnalysis translateQuery
  rw [hpre]
  rfl

/-- Witness for the C7 theorem: a question about Ashraf against an empty
student directory returns the not-found message without invoking the
generative client. -/
theorem unknown_name_short_circuits_witness :
    (containsSub (jsToLower "Where is Ashraf") "ashraf" ||
        containsSub (jsToLower "Where is Ashraf") "mahaboob") = true ∧
      runRAGAnalysis true [] "2026-10-11" (fun _ => Except.ok [])
          (fun _ => "[]") (fun _ _ => "ok") "Where is Ashraf" =
        (notFoundMsg
          (if containsSub (jsToLower "Where is Ashraf") "ashraf" then "ashraf"
            else "mahaboob"), false) :=
  ⟨by decide,
    unknown_name_short_circuits [] "2026-10-11" (fun _ => Except.ok [])
      (fun _ => "[]") (fun _ _ => "ok") "Where is Ashraf"
      (by decide) (by decide) (by decide) (by decide)⟩
